import Mathlib

/-!
Shallow embedding of `bukuserver/forms.py` (buku's web-form schemas and
validation) and proofs of the specified properties.

The file models:
  * the Python values the forms receive (`PyVal`) and the request data
    mapping (`DataMap`),
  * the tag validator `validate_tag`,
  * the wtforms validation behaviour of each form's fields as used by the
    API forms (`DataRequired`, `FieldList` entry construction with
    `min_entries` padding, per-entry validator chains, the form error map),
  * `ApiTagForm.process_data` and `ApiBookmarkRangeEditForm.process_data`,
  * declarative field schemas of every form, for the claims about field
    declarations and defaults.
-/

namespace BukuForms

/-- Modelled from the spec: the reserved tag delimiter constant `DELIM`
imported from the bookmark-storage library `buku`, which is not under
`src/`.  The glossary calls it "the single reserved character used to
separate multiple tags in storage", and the spec's examples join tags
`["a","b"]` into `"a,b"`, so the delimiter is the comma. -/
def DELIM : String := ","

/-- A Python value as it can occur in the JSON-derived request mapping:
a string, a list, a boolean, an integer, or `None`. -/
inductive PyVal where
  | str : String → PyVal
  | list : List PyVal → PyVal
  | bool : Bool → PyVal
  | int : Int → PyVal
  | none : PyVal
deriving Repr

/-- Python truthiness (`bool(v)`): empty string, empty list, `False`,
`0` and `None` are falsy, everything else truthy. -/
def PyVal.truthy : PyVal → Bool
  | .str s => !s.data.isEmpty
  | .list l => !l.isEmpty
  | .bool b => b
  | .int n => n != 0
  | .none => false

/-- Python's `isinstance(v, list)`. -/
def PyVal.isList : PyVal → Bool
  | .list _ => true
  | _ => false

/-- The request data mapping (a Python dict keyed by field name). -/
abbrev DataMap := List (String × PyVal)

/-- Python's `data.get(k)`: the value stored under `k`, or `None` when the
key is absent (Python's `dict.get` default).  A stored `None` and a
missing key are indistinguishable, exactly as for `dict.get`. -/
def DataMap.getPy (d : DataMap) (k : String) : PyVal :=
  match d.find? (fun p => p.1 == k) with
  | Option.some p => p.2
  | Option.none => PyVal.none

/-- Python's `sep.join(strs)` restricted to a list of strings. -/
def joinStrs (sep : String) : List String → String
  | [] => ""
  | [s] => s
  | s :: rest => s ++ sep ++ joinStrs sep rest

/-- One character as a string (Python iterates a string by characters). -/
def strOfChar (c : Char) : String := String.mk [c]

/-- Extraction of a list of strings from a list of Python values;
fails (as Python's `join` does with `TypeError`) on any non-string
element. -/
def pyStrList : List PyVal → Option (List String)
  | [] => Option.some []
  | PyVal.str s :: rest => (pyStrList rest).map (fun l => s :: l)
  | _ => Option.none

/-- Python's `sep.join(v)` on an arbitrary value: joining a string joins its
characters, joining a list requires every element to be a string
(otherwise Python raises `TypeError`, modelled as `Option.none`), and any
other value is not iterable (`TypeError` as well). -/
def pyJoin (sep : String) : PyVal → Option String
  | .str s => Option.some (joinStrs sep (s.data.map strOfChar))
  | .list l => (pyStrList l).map (joinStrs sep)
  | _ => Option.none

/-- Modelled from the spec: `parse_tags`, the "tag-parsing helper supplied
by the external bookmark-storage library" (`buku.parse_tags`, not under
`src/`).  Per spec section 4.4(c), the processing step on success joins
"the validated tag list with the reserved delimiter into a single
normalized string"; the helper therefore joins its argument list with the
delimiter, which is the identity on the already-joined single-element
list the form code passes it. -/
def parse_tags (keywords : List String) : String := joinStrs DELIM keywords

/-- Test whether the second character list occurs at the head of the
first. -/
def isPrefixList : List Char → List Char → Bool
  | _, [] => true
  | [], _ :: _ => false
  | a :: as, b :: bs => a == b && isPrefixList as bs

/-- Test whether the pattern occurs as a contiguous subsequence. -/
def hasSubSeq (pat : List Char) : List Char → Bool
  | [] => pat.isEmpty
  | c :: rest => isPrefixList (c :: rest) pat || hasSubSeq pat rest

/-- Substring test, `sub in s` in Python. -/
def containsSubstr (s sub : String) : Bool := hasSubSeq sub.data s.data

/-- Error message of wtforms' `DataRequired` validator. -/
def requiredMsg : String := "This field is required."

/-- First error message of `validate_tag`. -/
def tagNotStringMsg : String := "Tag must be a string."

/-- Second error message of `validate_tag`
(`'Tag must not contain delimiter "{}".'.format(DELIM)`). -/
def tagDelimMsg : String := "Tag must not contain delimiter \"" ++ DELIM ++ "\"."

/-- The function `validate_tag(form, field)` from `forms.py`: raises
`ValidationError('Tag must be a string.')` when the field's data is not a
string, then `ValidationError('Tag must not contain delimiter ...')` when
it contains `DELIM`.  Returns the raised message, or `Option.none` when
the tag is accepted. -/
def validate_tag (v : PyVal) : Option String :=
  match v with
  | .str s => if containsSubstr s DELIM then Option.some tagDelimMsg else Option.none
  | _ => Option.some tagNotStringMsg

/-- wtforms `DataRequired`: passes iff the data is truthy and is not a
string consisting only of whitespace (`not field.data or
(isinstance(field.data, str) and not field.data.strip())` fails). -/
def dataRequiredOk : PyVal → Bool
  | .str s => !s.data.all Char.isWhitespace
  | v => v.truthy

/-- The entries a `FieldList` builds from a data value: a list contributes
its elements in order, a string contributes its characters, any falsy or
non-iterable-by-the-field value contributes none; afterwards empty
entries (data `None`) are appended until `min_entries` is reached. -/
def fieldListEntries (minEntries : Nat) (v : PyVal) : List PyVal :=
  let base : List PyVal :=
    if v.truthy then
      match v with
      | .list l => l
      | .str s => s.data.map (fun c => PyVal.str (strOfChar c))
      | _ => []
    else []
  base ++ List.replicate (minEntries - base.length) PyVal.none

/-- The validator chain of one tag entry: `DataRequired` (when present)
stops the chain with its message; otherwise `validate_tag` may add its
message. -/
def entryErrors (withRequired : Bool) (v : PyVal) : List String :=
  if withRequired && !(dataRequiredOk v) then [requiredMsg]
  else
    match validate_tag v with
    | Option.some m => [m]
    | Option.none => []

/-- The error list of the `tags` `FieldList`: one message list per entry;
wtforms resets it to `[]` when every entry validated. -/
def tagsFieldErrors (withRequired : Bool) (minEntries : Nat) (v : PyVal) :
    List (List String) :=
  let es := (fieldListEntries minEntries v).map (entryErrors withRequired)
  if es.all List.isEmpty then [] else es

/-- A value of the field-keyed error description `self.errors`: a plain
string (only in the hand-built type-mismatch detail), a `FieldList`'s
per-entry message lists, or a plain field's message list. -/
inductive ErrVal where
  | msg : String → ErrVal
  | entries : List (List String) → ErrVal
  | msgs : List String → ErrVal
deriving DecidableEq, Repr

/-- The field-keyed error description. -/
abbrev ErrDetail := List (String × ErrVal)

/-- The only `Response` kind `forms.py` uses. -/
inductive Response where
  | INPUT_NOT_VALID
deriving DecidableEq, Repr

/-- Validation errors (`form.errors`) of `ApiTagForm`: its only field is
`tags = FieldList(StringField(validators=[DataRequired(), validate_tag]), min_entries=1)`. -/
def ApiTagForm.formErrors (d : DataMap) : ErrDetail :=
  let te := tagsFieldErrors true 1 (d.getPy "tags")
  if te.isEmpty then [] else [("tags", ErrVal.entries te)]

/-- Validation errors (`form.errors`) of `ApiBookmarkCreateForm`:
`url = StringField(validators=[DataRequired()])`, `title`, `description`
and `fetch` carry no validators, and
`tags = FieldList(StringField(validators=[validate_tag]), min_entries=0)`. -/
def ApiBookmarkCreateForm.formErrors (d : DataMap) : ErrDetail :=
  let urlErrs : List String :=
    if dataRequiredOk (d.getPy "url") then [] else [requiredMsg]
  let te := tagsFieldErrors false 0 (d.getPy "tags")
  (if urlErrs.isEmpty then [] else [("url", ErrVal.msgs urlErrs)]) ++
    (if te.isEmpty then [] else [("tags", ErrVal.entries te)])

/-- Validation errors (`form.errors`) of `ApiBookmarkEditForm`: it overrides `url` with a
validator-free `StringField()`, so only the `tags` field can fail. -/
def ApiBookmarkEditForm.formErrors (d : DataMap) : ErrDetail :=
  let te := tagsFieldErrors false 0 (d.getPy "tags")
  if te.isEmpty then [] else [("tags", ErrVal.entries te)]

/-- What `process_data` leaves behind: the returned
`(error_response, data)` pair and the `tags_str` attribute. -/
structure ProcReturn where
  resp : Option Response
  detail : Option ErrDetail
  tags_str : Option String
deriving DecidableEq

/-- Outcome of `process_data`: a normal return, or an uncaught Python
`TypeError` from `DELIM.join` on a non-iterable (reachable only through
subclasses whose `tags` field is optional). -/
inductive ProcResult where
  | ok : ProcReturn → ProcResult
  | crash : ProcResult
deriving DecidableEq

/-- The type-mismatch return:
`Response.INPUT_NOT_VALID, {'errors': {'tags': 'List of tags expected.'}}`. -/
def typeMismatchReturn : ProcReturn :=
  ⟨Option.some Response.INPUT_NOT_VALID,
   Option.some [("tags", ErrVal.msg "List of tags expected.")],
   Option.none⟩

/-- The method `ApiTagForm.process_data(self, data)`, parameterised by the form's
validation (`formErrors`), since the method is inherited by every API
form: reject a truthy non-list `tags` with the type-mismatch error,
otherwise run field validation and reject on any error, otherwise set
`tags_str` to `None` when `tags` is `None` and to
`parse_tags([DELIM.join(tags)])` otherwise, and return `(None, None)`. -/
def processData (formErrors : DataMap → ErrDetail) (d : DataMap) : ProcResult :=
  let tags := d.getPy "tags"
  if tags.truthy && !tags.isList then
    ProcResult.ok typeMismatchReturn
  else
    let errs := formErrors d
    if !errs.isEmpty then
      ProcResult.ok ⟨Option.some Response.INPUT_NOT_VALID, Option.some errs, Option.none⟩
    else
      match tags with
      | PyVal.none => ProcResult.ok ⟨Option.none, Option.none, Option.none⟩
      | _ =>
          match pyJoin DELIM tags with
          | Option.some j =>
              ProcResult.ok ⟨Option.none, Option.none, Option.some (parse_tags [j])⟩
          | Option.none => ProcResult.crash

/-- The inherited `process_data` on the base `ApiTagForm`. -/
def ApiTagForm.process_data (d : DataMap) : ProcResult :=
  processData ApiTagForm.formErrors d

/-- The method `process_data` as inherited by `ApiBookmarkCreateForm`. -/
def ApiBookmarkCreateForm.process_data (d : DataMap) : ProcResult :=
  processData ApiBookmarkCreateForm.formErrors d

/-- The method `process_data` as inherited by `ApiBookmarkEditForm`. -/
def ApiBookmarkEditForm.process_data (d : DataMap) : ProcResult :=
  processData ApiBookmarkEditForm.formErrors d

/-- What `ApiBookmarkRangeEditForm.process_data` leaves behind: the
returned pair, `tags_str`, and the instruction string `tags_in`. -/
structure RangeReturn where
  resp : Option Response
  detail : Option ErrDetail
  tags_str : Option String
  tags_in : Option String
deriving DecidableEq

/-- The method `ApiBookmarkRangeEditForm.process_data(self, data)`: run the inherited
step (the range form's fields validate exactly as the edit form's, its
extra `del_tags` `BooleanField` having no validators), then, when
`tags_str` was produced, set `tags_in` to it prefixed with `"-"` when
`self.del_tags.data` is true and `"+"` otherwise; `del_tags.data` is
`bool(value)` of the supplied value, defaulting to `False`.  Returns the
inherited pair unchanged (`Option.none` models an uncaught exception of
the inherited step). -/
def ApiBookmarkRangeEditForm.process_data (d : DataMap) : Option RangeReturn :=
  match processData ApiBookmarkEditForm.formErrors d with
  | ProcResult.crash => Option.none
  | ProcResult.ok r =>
      let del := (d.getPy "del_tags").truthy
      let tin := r.tags_str.map (fun s => (if del then "-" else "+") ++ s)
      Option.some ⟨r.resp, r.detail, r.tags_str, tin⟩

/-- The wtforms field kinds used in `forms.py`. -/
inductive FieldKind where
  | stringField
  | textAreaField
  | hiddenField
  | booleanField
  | fieldList
deriving DecidableEq, Repr

/-- The validators attached to fields in `forms.py`. -/
inductive Validator where
  | dataRequired
  | inputRequired
  | validateTag
deriving DecidableEq, Repr

/-- Declarative description of one wtforms field: the attribute name, the
submitted name (the `name=` argument when overridden), the field kind, the
validator list, `min_entries` (meaningful for a `FieldList`), whether the
field carries the `bool` filter, and the declared default value. -/
structure FieldSpec where
  name : String
  htmlName : String
  kind : FieldKind
  validators : List Validator
  minEntries : Nat
  boolFilter : Bool
  default : PyVal
deriving Repr

/-- Field declarations of `SearchBookmarksForm`: a keyword `FieldList`
with `min_entries=1` and four `BooleanField` toggles, of which
`all_keywords` and `markers` declare `default=True` and `deep` and
`regex` declare no default (Python `None`). -/
def SearchBookmarksForm.fields : List FieldSpec :=
  [ ⟨"keywords", "keywords", FieldKind.fieldList, [], 1, false, PyVal.none⟩,
    ⟨"all_keywords", "all_keywords", FieldKind.booleanField, [], 0, false, PyVal.bool true⟩,
    ⟨"markers", "markers", FieldKind.booleanField, [], 0, false, PyVal.bool true⟩,
    ⟨"deep", "deep", FieldKind.booleanField, [], 0, false, PyVal.none⟩,
    ⟨"regex", "regex", FieldKind.booleanField, [], 0, false, PyVal.none⟩ ]

/-- Field declarations of `BookmarkForm`: `url` is a `StringField` named
`link` with `InputRequired`, `tags` is a plain string field here, and
`fetch` is a hidden field with the `bool` filter. -/
def BookmarkForm.fields : List FieldSpec :=
  [ ⟨"url", "link", FieldKind.stringField, [Validator.inputRequired], 0, false, PyVal.none⟩,
    ⟨"title", "title", FieldKind.stringField, [], 0, false, PyVal.none⟩,
    ⟨"tags", "tags", FieldKind.stringField, [], 0, false, PyVal.none⟩,
    ⟨"description", "description", FieldKind.textAreaField, [], 0, false, PyVal.none⟩,
    ⟨"fetch", "fetch", FieldKind.hiddenField, [], 0, true, PyVal.none⟩ ]

/-- Field declarations of `ApiTagForm`: a single `tags` `FieldList` with
`min_entries=1` whose entries carry `DataRequired` and `validate_tag`. -/
def ApiTagForm.fields : List FieldSpec :=
  [ ⟨"tags", "tags", FieldKind.fieldList,
     [Validator.dataRequired, Validator.validateTag], 1, false, PyVal.none⟩ ]

/-- Field declarations of `ApiBookmarkCreateForm`: `url` with
`DataRequired`, plain `title` and `description`, the inherited `tags`
field overridden by a `FieldList` with `min_entries=0` whose entries carry
only `validate_tag`, and `fetch` hidden with the `bool` filter and
`default=True`. -/
def ApiBookmarkCreateForm.fields : List FieldSpec :=
  [ ⟨"url", "url", FieldKind.stringField, [Validator.dataRequired], 0, false, PyVal.none⟩,
    ⟨"title", "title", FieldKind.stringField, [], 0, false, PyVal.none⟩,
    ⟨"description", "description", FieldKind.stringField, [], 0, false, PyVal.none⟩,
    ⟨"tags", "tags", FieldKind.fieldList, [Validator.validateTag], 0, false, PyVal.none⟩,
    ⟨"fetch", "fetch", FieldKind.hiddenField, [], 0, true, PyVal.bool true⟩ ]

/-- Field declarations of `ApiBookmarkEditForm`: the create form's fields
with `url` overridden by a validator-free `StringField()`. -/
def ApiBookmarkEditForm.fields : List FieldSpec :=
  ApiBookmarkCreateForm.fields.map (fun f =>
    if f.name == "url" then
      ⟨"url", "url", FieldKind.stringField, [], 0, false, PyVal.none⟩
    else f)

/-- Field declarations of `ApiBookmarkRangeEditForm`: the edit form's
fields plus the `del_tags` `BooleanField` with `default=False`. -/
def ApiBookmarkRangeEditForm.fields : List FieldSpec :=
  ApiBookmarkEditForm.fields ++
    [ ⟨"del_tags", "del_tags", FieldKind.booleanField, [], 0, false, PyVal.bool false⟩ ]

/-- The field of a form with a given attribute name. -/
def lookupField (fs : List FieldSpec) (n : String) : Option FieldSpec :=
  fs.find? (fun f => f.name == n)

/-- The validator list of a form's field (empty when the field is
absent). -/
def lookupValidators (fs : List FieldSpec) (n : String) : List Validator :=
  match lookupField fs n with
  | Option.some f => f.validators
  | Option.none => []

end BukuForms

namespace BukuForms

/-! ## Helper lemmas -/

/-- Extraction succeeds on a list of string values and returns them in
order. -/
theorem pyStrList_map_str (tags : List String) :
    pyStrList (tags.map PyVal.str) = Option.some tags := by
  induction tags with
  | nil => rfl
  | cons a as ih => simp [pyStrList, ih]

/-- Extraction succeeds whenever every element is a string value. -/
theorem pyStrList_isSome_of_strs (l : List PyVal)
    (h : ∀ v ∈ l, ∃ s, v = PyVal.str s) :
    ∃ ss, pyStrList l = Option.some ss := by
  induction l with
  | nil => exact ⟨[], rfl⟩
  | cons a as ih =>
      obtain ⟨s, rfl⟩ := h a (by simp)
      obtain ⟨ss, hss⟩ := ih (fun v hv => h v (by simp [hv]))
      exact ⟨s :: ss, by simp [pyStrList, hss]⟩

/-- An entry with no validation errors holds a string value. -/
theorem entryErrors_nil_str (w : Bool) (v : PyVal) (h : entryErrors w v = []) :
    ∃ s, v = PyVal.str s := by
  cases v with
  | str s => exact ⟨s, rfl⟩
  | list l => exfalso; unfold entryErrors at h; split at h <;> simp [validate_tag] at h
  | bool b => exfalso; unfold entryErrors at h; split at h <;> simp [validate_tag] at h
  | int n => exfalso; unfold entryErrors at h; split at h <;> simp [validate_tag] at h
  | none => exfalso; unfold entryErrors at h; split at h <;> simp [validate_tag] at h

/-- A `FieldList` with `min_entries=1` always builds at least one entry. -/
theorem fieldListEntries_one_ne_nil (v : PyVal) : fieldListEntries 1 v ≠ [] := by
  intro h
  have hl := congrArg List.length h
  simp only [fieldListEntries, List.length_append, List.length_replicate,
    List.length_nil] at hl
  omega

/-- On an error return of `process_data` the `tags_str` attribute is
still unset. -/
theorem processData_error_tags_str_none (fe : DataMap → ErrDetail) (d : DataMap)
    (r : ProcReturn) (resp : Response)
    (hok : processData fe d = ProcResult.ok r)
    (hresp : r.resp = Option.some resp) :
    r.tags_str = Option.none := by
  simp only [processData] at hok
  split at hok
  · cases hok; rfl
  · split at hok
    · cases hok; rfl
    · split at hok
      · cases hok; simp at hresp
      · split at hok
        · cases hok; simp at hresp
        · cases hok

/-! ## Claim theorems -/

/-- C5: the tag validator rejects a value exactly when it is not a string
or is a string containing the reserved delimiter; every delimiter-free
string is accepted. -/
theorem validate_tag_rejects_iff (v : PyVal) :
    (∃ m, validate_tag v = Option.some m)
      ↔ (¬ ∃ s, v = PyVal.str s)
        ∨ (∃ s, v = PyVal.str s ∧ containsSubstr s DELIM = true) := by
  cases v with
  | str s =>
      by_cases h : containsSubstr s DELIM
      · simp [validate_tag, h]
      · simp [validate_tag, h]
  | list l => simp [validate_tag]
  | bool b => simp [validate_tag]
  | int n => simp [validate_tag]
  | none => simp [validate_tag]

/-- C1 (amended): if the data mapping's `tags` entry is truthy (in
Python's sense) and not a list, `process_data` returns the type-mismatch
error, regardless of the form subclass (any validation behaviour `fe`)
and of all other fields. -/
theorem processData_truthy_nonlist (fe : DataMap → ErrDetail) (d : DataMap)
    (h1 : (DataMap.getPy d "tags").truthy = true)
    (h2 : (DataMap.getPy d "tags").isList = false) :
    processData fe d = ProcResult.ok typeMismatchReturn := by
  unfold processData
  simp [h1, h2]

/-- C1 witness: on the base form, `tags` supplied as the non-empty string
`"x"` (truthy, not a list) yields the type-mismatch error. -/
theorem processData_truthy_nonlist_witness :
    processData ApiTagForm.formErrors [("tags", PyVal.str "x")]
      = ProcResult.ok typeMismatchReturn :=
  processData_truthy_nonlist ApiTagForm.formErrors [("tags", PyVal.str "x")] rfl rfl

/-- C1 counterexample: the empty string is not a list, yet supplied as
`tags` to the edit form the step succeeds with no error at all (the
source guard `if tags and not isinstance(tags, list)` skips falsy
values), refuting the claim that every non-list `tags` value yields the
type-mismatch error. -/
theorem nonlist_tags_without_type_error :
    PyVal.isList (PyVal.str "") = false
    ∧ ApiBookmarkEditForm.process_data [("tags", PyVal.str "")]
        = ProcResult.ok ⟨Option.none, Option.none, Option.some ""⟩
    ∧ ProcResult.ok (⟨Option.none, Option.none, Option.some ""⟩ : ProcReturn)
        ≠ ProcResult.ok typeMismatchReturn := by
  refine ⟨rfl, rfl, ?_⟩
  decide

end BukuForms

namespace BukuForms

/-- C7: the URL field carries a required-value validator on the create
forms (`InputRequired` on `BookmarkForm`, `DataRequired` on
`ApiBookmarkCreateForm`) and none on `ApiBookmarkEditForm`, whose other
fields are exactly the create form's unchanged; moreover whenever the
supplied `url` fails the required check (missing, empty or blank), the
create API form's validation reports an error. -/
theorem url_required_create_optional_edit :
    (lookupValidators BookmarkForm.fields "url" = [Validator.inputRequired]
    ∧ lookupValidators ApiBookmarkCreateForm.fields "url" = [Validator.dataRequired]
    ∧ lookupValidators ApiBookmarkEditForm.fields "url" = []
    ∧ ApiBookmarkEditForm.fields.filter (fun f => f.name != "url")
        = ApiBookmarkCreateForm.fields.filter (fun f => f.name != "url"))
    ∧ ∀ d : DataMap, dataRequiredOk (DataMap.getPy d "url") = false →
        ApiBookmarkCreateForm.formErrors d ≠ [] := by
  refine ⟨⟨rfl, rfl, rfl, rfl⟩, ?_⟩
  intro d h
  simp [ApiBookmarkCreateForm.formErrors, h]

/-- C7 witness: with an empty mapping the `url` value is missing, the
required check fails there, and the create API form reports errors. -/
theorem url_required_create_optional_edit_witness :
    ApiBookmarkCreateForm.formErrors [] ≠ [] :=
  url_required_create_optional_edit.2 [] rfl

/-- C8: the search form declares a repeatable keyword `FieldList` with
minimum one entry, its four toggles are `BooleanField`s, and their
effective defaults when nothing is submitted (`bool(default)`) are:
match-all-keywords true, markers true, deep-search false, regex false. -/
theorem search_form_decl :
    (lookupField SearchBookmarksForm.fields "keywords").map FieldSpec.kind
        = Option.some FieldKind.fieldList
    ∧ (lookupField SearchBookmarksForm.fields "keywords").map FieldSpec.minEntries
        = Option.some 1
    ∧ (SearchBookmarksForm.fields.filter
        (fun f => f.kind == FieldKind.booleanField)).map FieldSpec.name
        = ["all_keywords", "markers", "deep", "regex"]
    ∧ (lookupField SearchBookmarksForm.fields "all_keywords").map
        (fun f => f.default.truthy) = Option.some true
    ∧ (lookupField SearchBookmarksForm.fields "markers").map
        (fun f => f.default.truthy) = Option.some true
    ∧ (lookupField SearchBookmarksForm.fields "deep").map
        (fun f => f.default.truthy) = Option.some false
    ∧ (lookupField SearchBookmarksForm.fields "regex").map
        (fun f => f.default.truthy) = Option.some false :=
  ⟨rfl, rfl, rfl, rfl, rfl, rfl, rfl⟩

/-- C2: whenever the data's `tags` entry is a list of delimiter-free tag
strings and the processing step succeeds (for any form subclass), the
normalized `tags_str` is exactly the input tags joined by the reserved
delimiter, in input order. -/
theorem success_tags_str_is_join (fe : DataMap → ErrDetail) (d : DataMap)
    (tags : List String)
    (htags : DataMap.getPy d "tags" = PyVal.list (tags.map PyVal.str))
    (_hvalid : ∀ s ∈ tags, containsSubstr s DELIM = false)
    (r : ProcReturn)
    (hok : processData fe d = ProcResult.ok r)
    (hsucc : r.resp = Option.none) :
    r.tags_str = Option.some (joinStrs DELIM tags) := by
  simp only [processData, htags] at hok
  simp [PyVal.truthy, PyVal.isList] at hok
  by_cases he : fe d = []
  · simp [he, pyJoin, pyStrList_map_str, parse_tags, joinStrs] at hok
    subst hok
    rfl
  · simp [he] at hok
    subst hok
    simp at hsucc

/-- C2 witness: tags `["a","b"]` on the edit form succeed and produce
exactly `"a" ++ DELIM ++ "b"`, i.e. `"a,b"`. -/
theorem success_tags_str_is_join_witness :
    (⟨Option.none, Option.none, Option.some "a,b"⟩ : ProcReturn).tags_str
      = Option.some (joinStrs DELIM ["a", "b"]) :=
  success_tags_str_is_join ApiBookmarkEditForm.formErrors
    [("tags", PyVal.list [PyVal.str "a", PyVal.str "b"])] ["a", "b"]
    rfl (by decide) ⟨Option.none, Option.none, Option.some "a,b"⟩ rfl rfl

/-- C4: when the inherited step leaves a normalized `tags_str`, the
range-edit step sets `tags_in` to it prefixed with a minus sign when the
delete-tags flag is truthy and a plus sign otherwise. -/
theorem range_edit_tags_in_signed (d : DataMap) (r : RangeReturn) (s : String)
    (hok : ApiBookmarkRangeEditForm.process_data d = Option.some r)
    (hs : r.tags_str = Option.some s) :
    r.tags_in = Option.some
      ((if (DataMap.getPy d "del_tags").truthy then "-" else "+") ++ s) := by
  simp only [ApiBookmarkRangeEditForm.process_data] at hok
  cases hp : processData ApiBookmarkEditForm.formErrors d with
  | crash => rw [hp] at hok; simp at hok
  | ok r0 =>
      rw [hp] at hok
      simp at hok
      rw [← hok] at hs ⊢
      simp at hs
      simp [hs]

/-- C4 witness: with normalized tags `"a,b"`, `del_tags=true` yields the
instruction `"-a,b"` and an absent (hence false) `del_tags` yields
`"+a,b"`. -/
theorem range_edit_tags_in_signed_witness :
    (⟨Option.none, Option.none, Option.some "a,b", Option.some "-a,b"⟩ : RangeReturn).tags_in
      = Option.some ((if (DataMap.getPy
          [("tags", PyVal.list [PyVal.str "a", PyVal.str "b"]), ("del_tags", PyVal.bool true)]
          "del_tags").truthy then "-" else "+") ++ "a,b")
    ∧ (⟨Option.none, Option.none, Option.some "a,b", Option.some "+a,b"⟩ : RangeReturn).tags_in
      = Option.some ((if (DataMap.getPy
          [("tags", PyVal.list [PyVal.str "a", PyVal.str "b"])]
          "del_tags").truthy then "-" else "+") ++ "a,b") :=
  ⟨range_edit_tags_in_signed
      [("tags", PyVal.list [PyVal.str "a", PyVal.str "b"]), ("del_tags", PyVal.bool true)]
      ⟨Option.none, Option.none, Option.some "a,b", Option.some "-a,b"⟩ "a,b" rfl rfl,
   range_edit_tags_in_signed
      [("tags", PyVal.list [PyVal.str "a", PyVal.str "b"])]
      ⟨Option.none, Option.none, Option.some "a,b", Option.some "+a,b"⟩ "a,b" rfl rfl⟩

/-- C10: when the inherited step fails, the range-edit step leaves both
`tags_str` and `tags_in` unset and returns the inherited error pair
unchanged. -/
theorem range_edit_error_passthrough (d : DataMap) (r : ProcReturn) (resp : Response)
    (hok : processData ApiBookmarkEditForm.formErrors d = ProcResult.ok r)
    (hresp : r.resp = Option.some resp) :
    ApiBookmarkRangeEditForm.process_data d
      = Option.some ⟨r.resp, r.detail, Option.none, Option.none⟩ := by
  have hts := processData_error_tags_str_none ApiBookmarkEditForm.formErrors d r resp hok hresp
  simp only [ApiBookmarkRangeEditForm.process_data]
  rw [hok]
  simp [hts]

/-- C10 witness: a non-string tag makes the inherited step fail; the
range-edit step passes the error pair through with `tags_str` and
`tags_in` unset. -/
theorem range_edit_error_passthrough_witness :
    ApiBookmarkRangeEditForm.process_data [("tags", PyVal.list [PyVal.int 0])]
      = Option.some ⟨Option.some Response.INPUT_NOT_VALID,
          Option.some [("tags", ErrVal.entries [[tagNotStringMsg]])],
          Option.none, Option.none⟩ :=
  range_edit_error_passthrough [("tags", PyVal.list [PyVal.int 0])]
    ⟨Option.some Response.INPUT_NOT_VALID,
     Option.some [("tags", ErrVal.entries [[tagNotStringMsg]])], Option.none⟩
    Response.INPUT_NOT_VALID rfl rfl

end BukuForms

namespace BukuForms

/-- A tags field with no errors validated every one of its entries. -/
theorem tagsFieldErrors_nil_entries (w : Bool) (m : Nat) (v : PyVal)
    (h : tagsFieldErrors w m v = []) :
    ∀ u ∈ fieldListEntries m v, entryErrors w u = [] := by
  intro u hu
  simp only [tagsFieldErrors] at h
  split at h
  · next hall =>
      have := List.all_eq_true.mp hall (entryErrors w u)
        (List.mem_map_of_mem (entryErrors w) hu)
      exact List.isEmpty_iff.mp this
  · next =>
      exfalso
      have hm : entryErrors w u ∈ (fieldListEntries m v).map (entryErrors w) :=
        List.mem_map_of_mem (entryErrors w) hu
      rw [h] at hm
      simp at hm

/-- C3 (amended): with no `tags` entry in the mapping, the edit form's
step (optional `tags`, no other validated field) succeeds with
`tags_str` unset; the create form's step succeeds likewise whenever its
only other validated field, `url`, passes the required check; and the
base `ApiTagForm` — whose `tags` field declares `min_entries=1` with
`DataRequired` — fails validation with a required-field error instead of
succeeding. -/
theorem omitted_tags_edit_ok_base_required (d : DataMap)
    (htags : DataMap.getPy d "tags" = PyVal.none) :
    ApiBookmarkEditForm.process_data d
      = ProcResult.ok ⟨Option.none, Option.none, Option.none⟩
    ∧ (dataRequiredOk (DataMap.getPy d "url") = true →
        ApiBookmarkCreateForm.process_data d
          = ProcResult.ok ⟨Option.none, Option.none, Option.none⟩)
    ∧ ApiTagForm.process_data d
      = ProcResult.ok ⟨Option.some Response.INPUT_NOT_VALID,
          Option.some [("tags", ErrVal.entries [[requiredMsg]])], Option.none⟩ := by
  refine ⟨?_, ?_, ?_⟩
  · simp [ApiBookmarkEditForm.process_data, processData,
      ApiBookmarkEditForm.formErrors, tagsFieldErrors, fieldListEntries,
      entryErrors, htags, PyVal.truthy]
  · intro hurl
    simp [ApiBookmarkCreateForm.process_data, processData,
      ApiBookmarkCreateForm.formErrors, tagsFieldErrors, fieldListEntries,
      entryErrors, htags, hurl, PyVal.truthy]
  · simp [ApiTagForm.process_data, processData, ApiTagForm.formErrors,
      tagsFieldErrors, fieldListEntries, entryErrors, dataRequiredOk,
      htags, PyVal.truthy, validate_tag]

/-- C3 witness: the mapping holding only a valid `url` omits `tags`; the
edit form's step and the create form's step both succeed with `tags_str`
unset, and the base form rejects with the required-field error. -/
theorem omitted_tags_edit_ok_base_required_witness :
    ApiBookmarkEditForm.process_data [("url", PyVal.str "http://example.com")]
      = ProcResult.ok ⟨Option.none, Option.none, Option.none⟩
    ∧ ApiBookmarkCreateForm.process_data [("url", PyVal.str "http://example.com")]
      = ProcResult.ok ⟨Option.none, Option.none, Option.none⟩
    ∧ ApiTagForm.process_data [("url", PyVal.str "http://example.com")]
      = ProcResult.ok ⟨Option.some Response.INPUT_NOT_VALID,
          Option.some [("tags", ErrVal.entries [[requiredMsg]])], Option.none⟩ :=
  ⟨(omitted_tags_edit_ok_base_required [("url", PyVal.str "http://example.com")] rfl).1,
   (omitted_tags_edit_ok_base_required [("url", PyVal.str "http://example.com")] rfl).2.1 rfl,
   (omitted_tags_edit_ok_base_required [("url", PyVal.str "http://example.com")] rfl).2.2⟩

/-- C3 counterexample: on the empty mapping (no `tags` entry) the base
`ApiTagForm` step does not succeed: `min_entries=1` pads an empty entry
whose `DataRequired` validator fails, and the step returns the
validation-error pair, refuting the claim that omitting `tags` always
yields success on `ApiTagForm` and its subclasses. -/
theorem omitted_tags_base_form_error :
    ApiTagForm.process_data ([] : DataMap)
      = ProcResult.ok ⟨Option.some Response.INPUT_NOT_VALID,
          Option.some [("tags", ErrVal.entries [[requiredMsg]])], Option.none⟩
    ∧ ProcResult.ok (⟨Option.some Response.INPUT_NOT_VALID,
          Option.some [("tags", ErrVal.entries [[requiredMsg]])], Option.none⟩ : ProcReturn)
      ≠ ProcResult.ok ⟨Option.none, Option.none, Option.none⟩ :=
  ⟨rfl, by decide⟩

/-- C9 (amended): a mapping whose `tags` entry is the empty list is never
reported as a type mismatch, and the empty list is not treated as an
omitted entry: the edit form's step succeeds with `tags_str` set to the
non-`None` normalized empty string, and any successful run of the create
form's step yields that same string (the create form can still fail on
its other fields, e.g. a missing `url`, and then leaves `tags_str`
unset). -/
theorem empty_tags_list_processed (d : DataMap)
    (htags : DataMap.getPy d "tags" = PyVal.list []) :
    ApiBookmarkEditForm.process_data d
      = ProcResult.ok ⟨Option.none, Option.none, Option.some ""⟩
    ∧ ApiBookmarkCreateForm.process_data d ≠ ProcResult.ok typeMismatchReturn
    ∧ ∀ r, ApiBookmarkCreateForm.process_data d = ProcResult.ok r →
        r.resp = Option.none → r.tags_str = Option.some "" := by
  have hcreate : ApiBookmarkCreateForm.process_data d
      = (if dataRequiredOk (DataMap.getPy d "url") then
          ProcResult.ok ⟨Option.none, Option.none, Option.some ""⟩
        else
          ProcResult.ok ⟨Option.some Response.INPUT_NOT_VALID,
            Option.some [("url", ErrVal.msgs [requiredMsg])], Option.none⟩) := by
    by_cases hurl : dataRequiredOk (DataMap.getPy d "url")
    · simp [ApiBookmarkCreateForm.process_data, processData,
        ApiBookmarkCreateForm.formErrors, tagsFieldErrors, fieldListEntries,
        htags, PyVal.truthy, hurl, pyJoin, pyStrList, parse_tags, joinStrs]
    · simp [ApiBookmarkCreateForm.process_data, processData,
        ApiBookmarkCreateForm.formErrors, tagsFieldErrors, fieldListEntries,
        htags, PyVal.truthy, hurl, pyJoin, pyStrList, parse_tags, joinStrs]
  refine ⟨?_, ?_, ?_⟩
  · simp [ApiBookmarkEditForm.process_data, processData,
      ApiBookmarkEditForm.formErrors, tagsFieldErrors, fieldListEntries,
      htags, PyVal.truthy, pyJoin, pyStrList, parse_tags, joinStrs]
  · rw [hcreate]
    by_cases hurl : dataRequiredOk (DataMap.getPy d "url") <;>
      simp [hurl] <;> decide
  · intro r hr hresp
    rw [hcreate] at hr
    by_cases hurl : dataRequiredOk (DataMap.getPy d "url")
    · rw [if_pos hurl] at hr
      cases hr
      rfl
    · rw [if_neg hurl] at hr
      cases hr
      simp at hresp

/-- C9 witness: with the mapping holding only the empty `tags` list, the
edit form's step succeeds and `tags_str` is the non-`None` empty string,
unlike the omitted-`tags` case where it stays `None`. -/
theorem empty_tags_list_processed_witness :
    ApiBookmarkEditForm.process_data [("tags", PyVal.list [])]
      = ProcResult.ok ⟨Option.none, Option.none, Option.some ""⟩ :=
  (empty_tags_list_processed [("tags", PyVal.list [])] rfl).1

/-- C9 counterexample: the mapping whose only entry is the empty `tags`
list, supplied to the create form, does not produce a non-`None`
`tags_str`: the required `url` is missing, field validation fails first,
and `tags_str` stays unset (`None`), refuting the claim as stated for
the create form. -/
theorem empty_tags_list_create_no_tags_str :
    ApiBookmarkCreateForm.process_data [("tags", PyVal.list [])]
      = ProcResult.ok ⟨Option.some Response.INPUT_NOT_VALID,
          Option.some [("url", ErrVal.msgs [requiredMsg])], Option.none⟩ := rfl

end BukuForms

namespace BukuForms

/-- C6: on the base `ApiTagForm`, `process_data` always returns normally,
and returns exactly one of the two sentinel shapes of the framework
contract: the error pair with both components present, or `(None, None)`
on success. -/
theorem apiTagForm_outcome_pair (d : DataMap) :
    ∃ r, ApiTagForm.process_data d = ProcResult.ok r
      ∧ ((r.resp = Option.some Response.INPUT_NOT_VALID ∧ ∃ e, r.detail = Option.some e)
         ∨ (r.resp = Option.none ∧ r.detail = Option.none)) := by
  unfold ApiTagForm.process_data
  by_cases hc : ((DataMap.getPy d "tags").truthy && !(DataMap.getPy d "tags").isList) = true
  · refine ⟨typeMismatchReturn, ?_, Or.inl ⟨rfl, ⟨_, rfl⟩⟩⟩
    simp only [processData]
    rw [if_pos hc]
  · by_cases he : ApiTagForm.formErrors d = []
    · cases htags : DataMap.getPy d "tags" with
      | none =>
          refine ⟨⟨Option.none, Option.none, Option.none⟩, ?_, Or.inr ⟨rfl, rfl⟩⟩
          simp [processData, htags, he, PyVal.truthy]
      | str s =>
          exfalso
          rw [htags] at hc
          simp [PyVal.truthy, PyVal.isList] at hc
          simp [ApiTagForm.formErrors, htags, tagsFieldErrors, fieldListEntries,
            entryErrors, dataRequiredOk, PyVal.truthy, hc] at he
      | bool b =>
          exfalso
          rw [htags] at hc
          simp [PyVal.truthy, PyVal.isList] at hc
          subst hc
          simp [ApiTagForm.formErrors, htags, tagsFieldErrors, fieldListEntries,
            entryErrors, dataRequiredOk, PyVal.truthy] at he
      | int n =>
          exfalso
          rw [htags] at hc
          simp [PyVal.truthy, PyVal.isList] at hc
          subst hc
          simp [ApiTagForm.formErrors, htags, tagsFieldErrors, fieldListEntries,
            entryErrors, dataRequiredOk, PyVal.truthy] at he
      | list l =>
          have hte : tagsFieldErrors true 1 (PyVal.list l) = [] := by
            simp only [ApiTagForm.formErrors, htags] at he
            split at he
            · next hemp => exact List.isEmpty_iff.mp hemp
            · next => exact absurd he (by simp)
          have hall := tagsFieldErrors_nil_entries true 1 (PyVal.list l) hte
          cases l with
          | nil =>
              exfalso
              have hmem : PyVal.none ∈ fieldListEntries 1 (PyVal.list []) := by
                simp [fieldListEntries, PyVal.truthy]
              have := hall PyVal.none hmem
              simp [entryErrors, dataRequiredOk, PyVal.truthy] at this
          | cons a as =>
              have hent : fieldListEntries 1 (PyVal.list (a :: as)) = a :: as := by
                simp [fieldListEntries, PyVal.truthy]
              have hstrs : ∀ v ∈ a :: as, ∃ s, v = PyVal.str s := by
                intro v hv
                exact entryErrors_nil_str true v (hall v (by rw [hent]; exact hv))
              obtain ⟨ss, hss⟩ := pyStrList_isSome_of_strs (a :: as) hstrs
              refine ⟨⟨Option.none, Option.none,
                  Option.some (parse_tags [joinStrs DELIM ss])⟩, ?_, Or.inr ⟨rfl, rfl⟩⟩
              simp [processData, htags, he, PyVal.truthy, PyVal.isList, pyJoin, hss]
    · refine ⟨⟨Option.some Response.INPUT_NOT_VALID,
          Option.some (ApiTagForm.formErrors d), Option.none⟩, ?_,
          Or.inl ⟨rfl, ⟨_, rfl⟩⟩⟩
      simp only [processData]
      rw [if_neg hc]
      simp [he]

end BukuForms
